import Mathlib

/-!
Verification of the winter framework slice: the argument resolvers
(`winter/web/request_body_resolver.py`, `winter/drf/http_request_argument_resolver.py`),
the request-body converter, the schema synthesizer and the interceptor/query-flag
behaviour pinned by the tests under `tests/`.
-/

mutual
/-- Python type expressions as they appear in method argument declarations.
`cls name mro` is an ordinary class together with its method resolution order
(the list of ancestor class names, starting with the class itself);
`optionalT`, `genericAlias` and `noneT` are the non-class annotation forms
(typing aliases such as `Optional[int]`, and the literal `None`). -/
inductive PyType where
| intT : PyType
| strT : PyType
| noneT : PyType
| optionalT : PyType → PyType
| dataclassT : String → PyFields → PyType
| cls : String → List String → PyType
| genericAlias : String → PyType
inductive PyFields where
| fnil : PyFields
| fcons : String → PyType → PyFields → PyFields
end

deriving instance DecidableEq for PyType
deriving instance DecidableEq for PyFields

mutual
/-- Runtime Python values carried in a request payload. -/
inductive PyValue where
| pyInt : Int → PyValue
| pyStr : String → PyValue
| pyNone : PyValue
| pyObj : PyValFields → PyValue
inductive PyValFields where
| vnil : PyValFields
| vcons : String → PyValue → PyValFields → PyValFields
end

deriving instance DecidableEq for PyValue
deriving instance DecidableEq for PyValFields

/-- Dictionary lookup on an object's fields (first match wins, like `dict`). -/
def lookupField : PyValFields → String → Option PyValue
| PyValFields.vnil, _ => Option.none
| PyValFields.vcons k1 v1 rest, k => if k1 == k then some v1 else lookupField rest k

namespace inspect

/-- `inspect.isclass`: true for the class-valued annotations (`int`, `str`,
dataclasses, plain classes), false for typing aliases and the literal `None`. -/
def isclass : PyType → Bool
| PyType.optionalT _ => false
| PyType.genericAlias _ => false
| PyType.noneT => false
| _ => true

end inspect

/-- The method resolution order of a class-valued type expression
(the class's own name first, then ancestors up to `object`). -/
def pyMro : PyType → List String
| PyType.intT => ["int", "object"]
| PyType.strT => ["str", "object"]
| PyType.dataclassT n _ => [n, "object"]
| PyType.cls _ mro => mro
| _ => []

/-- `issubclass(t, base)`: raises `TypeError` when `t` is not a class,
otherwise checks whether `base` occurs in `t`'s method resolution order. -/
def pyIssubclass (t : PyType) (base : String) : Except String Bool :=
if inspect.isclass t then Except.ok ((pyMro t).contains base)
else Except.error "TypeError: issubclass() arg 1 must be a class"

/-- `winter.web.request_body_annotation.RequestBodyAnnotation`:
names the one argument that receives the deserialized request payload. -/
structure RequestBodyAnnot where
  argument_name : String
deriving DecidableEq

/-- The typed annotation set attached to a `ComponentMethod`; the request-body
slot is what `annotations.get_one_or_none(RequestBodyAnnotation)` returns. -/
structure Annotations where
  request_body : Option RequestBodyAnnot
deriving DecidableEq

/-- `winter.core.ComponentMethod` (the slice the resolvers read). -/
structure ComponentMethod where
  name : String
  annotations : Annotations
deriving DecidableEq

/-- `winter.core.ComponentMethodArgument`: one formal parameter with its
declared type and a back-reference to the owning method. -/
structure ComponentMethodArgument where
  name : String
  type_ : PyType
  method : ComponentMethod
deriving DecidableEq

/-- `rest_framework.request.Request` (imported as `HttpRequest` by the drf
resolver): only the payload `data` matters to this slice. -/
structure Request where
  data : PyValue
deriving DecidableEq

/-- The single failure kind the converter signals: a validation error
(spec §7: body-conversion failure is a Validation error, never a crash). -/
inductive ConvertError where
| validation : String → ConvertError
deriving DecidableEq

namespace converters

mutual
/-- Modelled from the spec: `winter.converters.convert` (the converter module
itself is not under `src/`): converts a raw payload value into the argument's
declared type via the converter keyed by that type — primitive checks,
`Optional` unwrapping and recursive dataclass construction — and signals a
Validation-kind failure when the payload's shape does not match. -/
def convert (v : PyValue) (t : PyType) : Except ConvertError PyValue :=
match t, v with
| PyType.intT, PyValue.pyInt n => Except.ok (PyValue.pyInt n)
| PyType.intT, _ => Except.error (ConvertError.validation "value is not an int")
| PyType.strT, PyValue.pyStr s => Except.ok (PyValue.pyStr s)
| PyType.strT, _ => Except.error (ConvertError.validation "value is not a str")
| PyType.noneT, PyValue.pyNone => Except.ok PyValue.pyNone
| PyType.noneT, _ => Except.error (ConvertError.validation "value is not none")
| PyType.optionalT _, PyValue.pyNone => Except.ok PyValue.pyNone
| PyType.optionalT t1, v1 => convert v1 t1
| PyType.dataclassT _ fs, PyValue.pyObj kvs =>
    match convertFields kvs fs with
    | Except.ok out => Except.ok (PyValue.pyObj out)
    | Except.error e => Except.error e
| PyType.dataclassT _ _, _ => Except.error (ConvertError.validation "value is not an object")
| PyType.cls _ _, _ => Except.error (ConvertError.validation "no converter registered")
| PyType.genericAlias _, _ => Except.error (ConvertError.validation "no converter registered")
def convertFields (kvs : PyValFields) (fs : PyFields) : Except ConvertError PyValFields :=
match fs with
| PyFields.fnil => Except.ok PyValFields.vnil
| PyFields.fcons fname ftype rest =>
    match lookupField kvs fname with
    | Option.none => Except.error (ConvertError.validation "missing field")
    | some fv =>
        match convert fv ftype with
        | Except.error e => Except.error e
        | Except.ok cv =>
            match convertFields kvs rest with
            | Except.error e => Except.error e
            | Except.ok out => Except.ok (PyValFields.vcons fname cv out)
end

end converters

mutual
/-- Whether a raw payload value already has the shape the declared type
demands: exactly the success condition of `converters.convert`. -/
def shapeMatches (v : PyValue) (t : PyType) : Bool :=
match t, v with
| PyType.intT, PyValue.pyInt _ => true
| PyType.intT, _ => false
| PyType.strT, PyValue.pyStr _ => true
| PyType.strT, _ => false
| PyType.noneT, PyValue.pyNone => true
| PyType.noneT, _ => false
| PyType.optionalT _, PyValue.pyNone => true
| PyType.optionalT t1, v1 => shapeMatches v1 t1
| PyType.dataclassT _ fs, PyValue.pyObj kvs => shapeMatchesFields kvs fs
| PyType.dataclassT _ _, _ => false
| PyType.cls _ _, _ => false
| PyType.genericAlias _, _ => false
def shapeMatchesFields (kvs : PyValFields) (fs : PyFields) : Bool :=
match fs with
| PyFields.fnil => true
| PyFields.fcons fname ftype rest =>
    match lookupField kvs fname with
    | Option.none => false
    | some fv => shapeMatches fv ftype && shapeMatchesFields kvs rest
end

/-- `Except` success test. -/
def isOkE {ε α : Type} : Except ε α → Bool
| Except.ok _ => true
| Except.error _ => false

namespace RequestBodyArgumentResolver

/-- `winter/web/request_body_resolver.py`, `is_supported`: the method must
carry a request-body annotation naming exactly this argument. -/
def is_supported (argument : ComponentMethodArgument) : Bool :=
match argument.method.annotations.request_body with
| Option.none => false
| some ann => ann.argument_name == argument.name

/-- `winter/web/request_body_resolver.py`, `resolve_argument`:
`return converters.convert(request.data, argument.type_)`. -/
def resolve_argument (argument : ComponentMethodArgument) (request : Request)
    (response_headers : List (String × String)) : Except ConvertError PyValue :=
  converters.convert request.data argument.type_

end RequestBodyArgumentResolver

namespace HttpRequestArgumentResolver

/-- `winter/drf/http_request_argument_resolver.py`, `is_supported`:
`inspect.isclass(argument.type_) and issubclass(argument.type_, HttpRequest)`.
Python's `and` short-circuits, so `issubclass` is evaluated only when the
class check succeeded; the possible `TypeError` is made explicit as `Except`. -/
def is_supported (argument : ComponentMethodArgument) : Except String Bool :=
if inspect.isclass argument.type_ then pyIssubclass argument.type_ "Request"
else Except.ok false

/-- `winter/drf/http_request_argument_resolver.py`, `resolve_argument`:
`return request`. -/
def resolve_argument (argument : ComponentMethodArgument) (request : Request)
    (response_headers : List (String × String)) : Request :=
  request

end HttpRequestArgumentResolver

/-! ### OpenAPI output model (the shape of the synthesized Operation) -/

/-- Primitive schema types used by the synthesizer. -/
inductive OType where
| integerT : OType
| stringT : OType
| objectT : OType
deriving DecidableEq

/-- One property of an object schema: its type, an optional description taken
from the dataclass docstring attribute table, and the `x-nullable` marker. -/
structure OProp where
  otype : OType
  description : Option String
  xnullable : Bool
deriving DecidableEq

/-- A synthesized schema: a primitive, or a flat object schema with title,
description, properties and a `required` list. -/
inductive OSchema where
| prim : OType → OSchema
| obj : String → String → List (String × OProp) → List String → OSchema
deriving DecidableEq

/-- The `required` list of a schema (empty for primitives). -/
def OSchema.reqList : OSchema → List String
| OSchema.prim _ => []
| OSchema.obj _ _ _ req => req

/-- Where a synthesized parameter lives. -/
inductive ParamIn where
| body : ParamIn
| path : ParamIn
| query : ParamIn
deriving DecidableEq

/-- One synthesized operation parameter. -/
structure OParameter where
  name : String
  in_ : ParamIn
  description : Option String
  required : Bool
  otype : Option OType
  schema : Option OSchema
deriving DecidableEq

/-- One synthesized response (per status code). -/
structure OResponse where
  description : String
  schema : Option OSchema
deriving DecidableEq

/-- The synthesized schema Operation. -/
structure Operation where
  operation_id : String
  description : String
  tags : List String
  parameters : List OParameter
  consumes : List String
  produces : List String
  responses : List (Nat × OResponse)
deriving DecidableEq

/-! ### Dataclass metadata and body-schema synthesis -/

/-- One declared dataclass field: name, primitive type, docstring description,
whether the declaration carries a default value, and whether the declared type
is `Optional`. -/
structure DcField where
  fname : String
  ftype : OType
  fdescription : Option String
  hasDefault : Bool
  isOptional : Bool
deriving DecidableEq

/-- A dataclass used as a request or response body: name, the description taken
from its class docstring, and its fields. -/
structure DataclassModel where
  dname : String
  ddescription : String
  fields : List DcField
deriving DecidableEq

/-- The object-schema property synthesized for one dataclass field. -/
def fieldProp (f : DcField) : OProp :=
  { otype := f.ftype, description := f.fdescription, xnullable := f.isOptional }

/-- Modelled from the spec: the request-body `required` list excludes the fields
that carry a default or are typed `Optional` (pinned by the expected
`user_dto_request_schema` fixture in `tests/winter_openapi`). -/
def requestRequired (d : DataclassModel) : List String :=
  (d.fields.filter (fun f => !f.hasDefault && !f.isOptional)).map DcField.fname

/-- Modelled from the spec: the response-body `required` list names every field
(pinned by the expected `user_dto_response_schema` fixture in
`tests/winter_openapi`). -/
def responseRequired (d : DataclassModel) : List String :=
  d.fields.map DcField.fname

/-- Modelled from the spec: the object schema synthesized for a dataclass used
as a request body. -/
def requestBodySchema (d : DataclassModel) : OSchema :=
  OSchema.obj d.dname d.ddescription (d.fields.map (fun f => (f.fname, fieldProp f)))
    (requestRequired d)

/-- Modelled from the spec: the object schema synthesized for a dataclass used
as a response body. -/
def responseBodySchema (d : DataclassModel) : OSchema :=
  OSchema.obj d.dname d.ddescription (d.fields.map (fun f => (f.fname, fieldProp f)))
    (responseRequired d)

/-! ### Docstring extraction -/

/-- Character-level whitespace test. -/
def isWs (c : Char) : Bool := c == ' ' || c == '\n' || c == '\t' || c == '\r'

/-- Strip leading and trailing whitespace (Python `str.strip`). -/
def strTrim (s : String) : String :=
  String.mk (((s.data.dropWhile isWs).reverse.dropWhile isWs).reverse)

/-- Whether `p` is a prefix of `s`. -/
def strStartsWith (s p : String) : Bool := p.data.isPrefixOf s.data

/-- Drop trailing blank lines. -/
def dropTrailingEmpty (ls : List String) : List String :=
  (ls.reverse.dropWhile (fun l => l == "")).reverse

/-- Modelled from the spec: the operation description is the docstring's summary
and long-description paragraphs verbatim — the lines before the first `:`-meta
line (`:param:`/`:return:`), trailing blank lines dropped. The docstring is
given as its dedented lines, as `inspect.getdoc` yields it. -/
def opDescription (doc : List String) : String :=
  String.intercalate "\n" (dropTrailingEmpty (doc.takeWhile (fun l => !(strStartsWith l ":"))))

/-- Parse one `:param name: text` line into the name and the trimmed text
(everything after the first colon that follows the name). -/
def parseParamLine (l : String) : Option (String × String) :=
  if strStartsWith l ":param " then
    let rest := l.data.drop 7
    some (strTrim (String.mk (rest.takeWhile (fun c => !(c == ':')))),
          strTrim (String.mk ((rest.dropWhile (fun c => !(c == ':'))).drop 1)))
  else Option.none

/-- All `:param:` pairs of a docstring, in order. -/
def docParamPairs (doc : List String) : List (String × String) :=
  doc.filterMap parseParamLine

/-- Modelled from the spec: the description attached to a path or query
parameter — the matching `:param:` text, or the empty string (never absent). -/
def paramDescription (doc : List String) (name : String) : String :=
  ((docParamPairs doc).lookup name).getD ""

/-! ### Route and method metadata consumed by the synthesizer -/

/-- A resolved route: http method, typed path variables, typed query-group
members, and the optionally declared media-type lists. -/
structure Route where
  http_method : String
  path_variables : List (String × OType)
  query_variables : List (String × OType)
  consumes : Option (List String)
  produces : Option (List String)
deriving DecidableEq

/-- The source of a response-body schema: a dataclass (expanded like any body
dataclass) or a primitive return/handler type. -/
inductive BodySrc where
| dc : DataclassModel → BodySrc
| prim : OType → BodySrc
deriving DecidableEq

/-- The schema a body source synthesizes to. -/
def bodySchemaOf : BodySrc → OSchema
| BodySrc.dc d => responseBodySchema d
| BodySrc.prim t => OSchema.prim t

/-- One entry of a method's Exception Handling Registry: the declared exception
name, the mapped status code, and the body source derived from the exception's
declared attributes (or the custom handler's return type). -/
structure ExcEntry where
  exc_name : String
  status : Nat
  body : Option BodySrc
deriving DecidableEq

/-- The static method metadata the Schema Synthesizer walks: identity, the raw
docstring, the optional route, the optional request-body dataclass, the return
body source, the fully-walked exception-handling entries, and the exceptions
the body raises without any declared mapping (invisible to the registry). -/
structure MethodModel where
  component_name : String
  method_name : String
  docstring : List String
  route : Option Route
  request_body : Option DataclassModel
  return_body : Option BodySrc
  exception_entries : List ExcEntry
  thrown_undeclared : List String
deriving DecidableEq

/-- Modelled from the spec: `SwaggerAutoSchema.get_operation` — one Operation
per method, from static metadata only. A routed method gets
`ClassName.method_name` as id, the docstring-derived description, one body
parameter plus one typed parameter per path/query variable (each described by
its `:param:` line or the empty string), declared-or-default media types, and
one response per declared status: 200 with the return-type schema first, then
one response per Exception Handling Registry entry. An unrouted method gets a
synthetic slug of the supplied operation keys, no parameters and only the 200
response. Exceptions thrown without a declared mapping contribute nothing. -/
def getOperation (keys : List String) (http_method : String) (m : MethodModel) : Operation :=
  match m.route with
  | Option.none =>
    { operation_id := String.intercalate "_" keys
      description := ""
      tags := keys.take 1
      parameters := []
      consumes := ["application/json"]
      produces := ["application/json"]
      responses := [(200, { description := "", schema := m.return_body.map bodySchemaOf })] }
  | some route =>
    { operation_id := m.component_name ++ "." ++ m.method_name
      description := opDescription m.docstring
      tags := keys.take 1
      parameters :=
        (match m.request_body with
         | some d =>
            [{ name := "data", in_ := ParamIn.body, description := Option.none,
               required := true, otype := Option.none, schema := some (requestBodySchema d) }]
         | Option.none => [])
        ++ route.path_variables.map (fun p =>
            { name := p.1, in_ := ParamIn.path,
              description := some (paramDescription m.docstring p.1),
              required := true, otype := some p.2, schema := Option.none })
        ++ route.query_variables.map (fun p =>
            { name := p.1, in_ := ParamIn.query,
              description := some (paramDescription m.docstring p.1),
              required := true, otype := some p.2, schema := Option.none })
      consumes := route.consumes.getD ["application/json"]
      produces := route.produces.getD ["application/json"]
      responses :=
        (200, { description := "", schema := m.return_body.map bodySchemaOf })
        :: m.exception_entries.map (fun e =>
            (e.status, { description := "", schema := e.body.map bodySchemaOf })) }

/-! ### Query-flag resolution and the header-writing interceptor -/

/-- The three observable states of a query parameter: wholly absent, present as
a bare key with no value, or present with a value. -/
inductive QueryValue where
| absent : QueryValue
| emptyMarker : QueryValue
| value : String → QueryValue
deriving DecidableEq

/-- Modelled from the spec: resolving a query key against the raw query pairs
distinguishes a bare key (empty marker) from a wholly absent one. -/
def queryFlagState (pairs : List (String × Option String)) (key : String) : QueryValue :=
  match pairs.lookup key with
  | Option.none => QueryValue.absent
  | some Option.none => QueryValue.emptyMarker
  | some (some s) => QueryValue.value s

/-- The raw inbound request as the interceptor sees it: the parsed query pairs
(a bare `?hello_world` parses as the key with no value). -/
structure SimpleHttpRequest where
  query_pairs : List (String × Option String)
deriving DecidableEq

/-- Modelled from the spec: the argument-independent interceptor writes
`x-method = ClassName.method_name` into the mutable response-headers map, and
additionally `x-hello-world = "Hello, World!"` unless the `hello_world` query
flag is wholly absent. -/
def interceptHeaders (component_name method_name : String) (req : SimpleHttpRequest)
    (response_headers : List (String × String)) : List (String × String) :=
  let hs := response_headers ++ [("x-method", component_name ++ "." ++ method_name)]
  match queryFlagState req.query_pairs "hello_world" with
  | QueryValue.absent => hs
  | _ => hs ++ [("x-hello-world", "Hello, World!")]

/-- Handling `GET /winter-simple/get/`: the response headers produced by the
interceptor for `SimpleAPI.get`. -/
def handleSimpleGet (req : SimpleHttpRequest) : List (String × String) :=
  interceptHeaders "SimpleAPI" "get" req []

/-! ### The claim-literal support predicate for the raw-request resolver -/

/-- The method resolution order of the framework's inbound request
representation (`rest_framework.request.Request`). -/
def requestRepresentationMro : List String := ["Request", "object"]

/-- The name of a class-valued type expression. -/
def classNameOf : PyType → String
| PyType.intT => "int"
| PyType.strT => "str"
| PyType.dataclassT n _ => n
| PyType.cls n _ => n
| _ => ""

/-- The support predicate exactly as the claim words it: the declared type is
the framework's request representation itself, or a supertype of it (a class
occurring in the request representation's method resolution order). -/
def claimFiveSupported (t : PyType) : Bool :=
  inspect.isclass t && requestRepresentationMro.contains (classNameOf t)

/-! ### Concrete fixtures mirroring the tests -/

/-- A method carrying no request-body annotation. -/
def noAnnotMethod : ComponentMethod :=
  { name := "get", annotations := { request_body := Option.none } }

/-- An argument declared with a strict subclass of the request class. -/
def myRequestSubclassArg : ComponentMethodArgument :=
  { name := "request", type_ := PyType.cls "MyRequest" ["MyRequest", "Request", "object"],
    method := noAnnotMethod }

/-- An argument declared `Optional[int]` — a typing alias, not a class. -/
def optionalIntArg : ComponentMethodArgument :=
  { name := "maybe_number", type_ := PyType.optionalT PyType.intT, method := noAnnotMethod }

/-- An argument declared with the request class itself. -/
def requestTypedArg : ComponentMethodArgument :=
  { name := "request", type_ := PyType.cls "Request" ["Request", "object"],
    method := noAnnotMethod }

/-- `NestedDTO` field `a: int`. -/
def nestedFieldA : DcField :=
  { fname := "a", ftype := OType.integerT, fdescription := Option.none,
    hasDefault := false, isOptional := false }

/-- `NestedDTO` field `b: str`. -/
def nestedFieldB : DcField :=
  { fname := "b", ftype := OType.stringT, fdescription := Option.none,
    hasDefault := false, isOptional := false }

/-- `NestedDTO` from the test module: two fields, no defaults. -/
def nestedDTOModel : DataclassModel :=
  { dname := "NestedDTO",
    ddescription := "a nested dto object.\nIt contains some extra data.",
    fields := [nestedFieldA, nestedFieldB] }

/-- `UserDTO` from the test module, restricted to its flat fields: `name: str`,
`surname: str = \x27\x27` (defaulted) and `age: Optional[int] = None`. -/
def userLikeDTOModel : DataclassModel :=
  { dname := "UserDTO",
    ddescription := "This is a short one line description.\n\nThis is a long multi-line description.\nIt spans multiple lines.",
    fields :=
      [{ fname := "name", ftype := OType.stringT, fdescription := some "user name",
         hasDefault := false, isOptional := false },
       { fname := "surname", ftype := OType.stringT, fdescription := some "user lastname",
         hasDefault := true, isOptional := false },
       { fname := "age", ftype := OType.integerT, fdescription := some "user age",
         hasDefault := true, isOptional := true }] }

/-- The cleaned docstring of `TestAPI.post` from the test module, as lines. -/
def testPostDocstring : List String :=
  ["This is post method",
   "",
   "This is a long multi-line text that provides a comprehensive description",
   "of all the details of the method.",
   "It is so long that does not fit in one line.",
   "So it spans multiple lines.",
   ":param path_param:",
   ":param query_param: some parameter description",
   ":param request_body:",
   ":return:"]

/-- The description the test expects for `TestAPI.post`. -/
def testPostExpectedDescription : String :=
  "This is post method\n\nThis is a long multi-line text that provides a comprehensive description\nof all the details of the method.\nIt is so long that does not fit in one line.\nSo it spans multiple lines."

/-- The route of `TestAPI.post`: one path variable, one query-group member and
explicit utf-8 media types. -/
def testPostRoute : Route :=
  { http_method := "post",
    path_variables := [("path_param", OType.integerT)],
    query_variables := [("query_param", OType.integerT)],
    consumes := some ["application/json; charset=utf-8"],
    produces := some ["application/json; charset=utf-8"] }

/-- The synthesizer's view of `TestAPI.post`. -/
def testPostModel : MethodModel :=
  { component_name := "TestAPI", method_name := "post",
    docstring := testPostDocstring,
    route := some testPostRoute,
    request_body := some userLikeDTOModel,
    return_body := some (BodySrc.dc userLikeDTOModel),
    exception_entries := [], thrown_undeclared := [] }

/-- The route of `TestAPI.get`: no variables, no declared media types. -/
def testGetRoute : Route :=
  { http_method := "get", path_variables := [], query_variables := [],
    consumes := Option.none, produces := Option.none }

/-- The synthesizer's view of `TestAPI.get` (void return, no body). -/
def testGetModel : MethodModel :=
  { component_name := "TestAPI", method_name := "get", docstring := [],
    route := some testGetRoute, request_body := Option.none,
    return_body := Option.none, exception_entries := [], thrown_undeclared := [] }

/-- A method with no route at all (void return). -/
def unroutedModel : MethodModel :=
  { component_name := "TestAPI", method_name := "unrouted", docstring := [],
    route := Option.none, request_body := Option.none, return_body := Option.none,
    exception_entries := [], thrown_undeclared := [] }

/-- `CustomExceptionDTO(message: str)` — the body dataclass of the declared
400 exception. -/
def customExceptionDTOModel : DataclassModel :=
  { dname := "CustomExceptionDTO", ddescription := "CustomExceptionDTO(message: str)",
    fields := [{ fname := "message", ftype := OType.stringT, fdescription := Option.none,
                 hasDefault := false, isOptional := false }] }

/-- The declared mapping of `CustomException` to status 400, with a body schema
derived from the exception's declared attributes. -/
def customEntry400 : ExcEntry :=
  { exc_name := "CustomException", status := 400,
    body := some (BodySrc.dc customExceptionDTOModel) }

/-- The declared mapping of an exception to status 401 via a custom handler
returning an int body. -/
def customEntry401 : ExcEntry :=
  { exc_name := "WithCustomHandlerException", status := 401,
    body := some (BodySrc.prim OType.integerT) }

/-- The route of the exception-declaring method. -/
def exceptionsRoute : Route :=
  { http_method := "get", path_variables := [], query_variables := [],
    consumes := Option.none, produces := Option.none }

/-- A method declaring exception mappings to 400 and 401 and also raising an
exception with no declared mapping (`APIWithExceptions`-style). -/
def exceptionsModel : MethodModel :=
  { component_name := "APIWithExceptions", method_name := "declared_and_thrown",
    docstring := [], route := some exceptionsRoute, request_body := Option.none,
    return_body := some (BodySrc.prim OType.stringT),
    exception_entries := [customEntry400, customEntry401],
    thrown_undeclared := ["NotDeclaredException"] }

mutual
/-- Success of `convert` coincides with the payload having the declared shape. -/
theorem convert_isOk (v : PyValue) (t : PyType) :
    isOkE (converters.convert v t) = shapeMatches v t := by
  cases t with
  | intT => cases v <;> rfl
  | strT => cases v <;> rfl
  | noneT => cases v <;> rfl
  | optionalT t1 =>
      cases v with
      | pyNone => rfl
      | pyInt n => exact convert_isOk (PyValue.pyInt n) t1
      | pyStr s => exact convert_isOk (PyValue.pyStr s) t1
      | pyObj kvs => exact convert_isOk (PyValue.pyObj kvs) t1
  | dataclassT n fs =>
      cases v with
      | pyObj kvs =>
          have h := convertFields_isOk kvs fs
          simp only [converters.convert, shapeMatches]
          cases hc : converters.convertFields kvs fs with
          | ok out => rw [hc] at h; simpa [isOkE] using h.symm
          | error e => rw [hc] at h; simpa [isOkE] using h.symm
      | pyInt m => rfl
      | pyStr s => rfl
      | pyNone => rfl
  | cls n mro => cases v <;> rfl
  | genericAlias n => cases v <;> rfl
theorem convertFields_isOk (kvs : PyValFields) (fs : PyFields) :
    isOkE (converters.convertFields kvs fs) = shapeMatchesFields kvs fs := by
  cases fs with
  | fnil => rfl
  | fcons fname ftype rest =>
      simp only [converters.convertFields, shapeMatchesFields]
      cases hl : lookupField kvs fname with
      | none => rfl
      | some fv =>
          have h1 := convert_isOk fv ftype
          have h2 := convertFields_isOk kvs rest
          cases hc : converters.convert fv ftype with
          | error e =>
              rw [hc] at h1
              simp [isOkE] at h1
              simp [isOkE, hc, ← h1]
          | ok cv =>
              rw [hc] at h1
              simp [isOkE] at h1
              cases hr : converters.convertFields kvs rest with
              | error e =>
                  rw [hr] at h2
                  simp [isOkE] at h2
                  simp [isOkE, hc, hr, h1, ← h2]
              | ok out =>
                  rw [hr] at h2
                  simp [isOkE] at h2
                  simp [isOkE, hc, hr, h1, h2]
end

/-- C3: `RequestBodyArgumentResolver.is_supported` returns true exactly when the
argument's owning method carries a request-body annotation whose declared
argument name equals this argument's name; in particular it returns false for
every argument of a method without a request-body annotation. -/
theorem requestBody_is_supported_iff :
    ∀ a : ComponentMethodArgument,
      (RequestBodyArgumentResolver.is_supported a = true ↔
        ∃ ann : RequestBodyAnnot, a.method.annotations.request_body = some ann ∧
          ann.argument_name = a.name)
      ∧ (a.method.annotations.request_body = Option.none →
          RequestBodyArgumentResolver.is_supported a = false) := by
  intro a
  unfold RequestBodyArgumentResolver.is_supported
  cases h : a.method.annotations.request_body with
  | none => simp
  | some ann => simp

/-- C3 witness: for a concrete argument of a method without a request-body
annotation, the resolver does not claim it. -/
theorem requestBody_is_supported_iff_witness :
    RequestBodyArgumentResolver.is_supported optionalIntArg = false :=
  (requestBody_is_supported_iff optionalIntArg).2 rfl

/-- C4: `resolve_argument` returns exactly the conversion of the raw payload
`request.data` into the argument's declared type, and whenever the payload's
shape does not match the declared type the conversion signals a Validation-kind
failure rather than crashing or returning an unconverted value. -/
theorem resolve_argument_convert_and_validation :
    (∀ (a : ComponentMethodArgument) (req : Request) (hdrs : List (String × String)),
        RequestBodyArgumentResolver.resolve_argument a req hdrs =
          converters.convert req.data a.type_)
    ∧ (∀ (v : PyValue) (t : PyType), shapeMatches v t = false →
        ∃ msg, converters.convert v t = Except.error (ConvertError.validation msg)) := by
  refine ⟨fun a req hdrs => rfl, fun v t h => ?_⟩
  have hk := convert_isOk v t
  rw [h] at hk
  cases hc : converters.convert v t with
  | ok r => rw [hc] at hk; simp [isOkE] at hk
  | error e => cases e with | validation msg => exact ⟨msg, rfl⟩

/-- C4 witness: converting a string payload into a declared `int` argument
fails with a Validation-kind error at a concrete input. -/
theorem resolve_argument_convert_and_validation_witness :
    ∃ msg, converters.convert (PyValue.pyStr "x") PyType.intT =
      Except.error (ConvertError.validation msg) :=
  resolve_argument_convert_and_validation.2 (PyValue.pyStr "x") PyType.intT rfl

/-- C5 counterexample: for an argument declared with a strict subclass of the
request class, `is_supported` succeeds although the declared type is neither
the request representation itself nor a supertype of it, refuting the claimed
equivalence as stated. -/
theorem http_request_supported_not_supertype :
    HttpRequestArgumentResolver.is_supported myRequestSubclassArg = Except.ok true
    ∧ claimFiveSupported myRequestSubclassArg.type_ = false := ⟨rfl, rfl⟩

/-- C5 (amended): `is_supported` succeeds exactly when the declared type is a
class whose method resolution order contains the request class — the request
representation itself or one of its subclasses, not a strict supertype — and
`resolve_argument` returns the request object unchanged. -/
theorem http_request_is_supported_subclass_iff :
    ∀ (a : ComponentMethodArgument) (req : Request) (hdrs : List (String × String)),
      (HttpRequestArgumentResolver.is_supported a = Except.ok true ↔
        inspect.isclass a.type_ = true ∧ (pyMro a.type_).contains "Request" = true)
      ∧ HttpRequestArgumentResolver.resolve_argument a req hdrs = req := by
  intro a req hdrs
  refine ⟨?_, rfl⟩
  unfold HttpRequestArgumentResolver.is_supported pyIssubclass
  cases h : inspect.isclass a.type_ with
  | false => simp [h]
  | true => simp [h]

/-- C5 witness: the argument declared with the request class itself is
supported, and resolution returns the request passed in. -/
theorem http_request_is_supported_subclass_iff_witness :
    HttpRequestArgumentResolver.is_supported requestTypedArg = Except.ok true
    ∧ HttpRequestArgumentResolver.resolve_argument requestTypedArg
        { data := PyValue.pyNone } [] = { data := PyValue.pyNone } :=
  ⟨((http_request_is_supported_subclass_iff requestTypedArg
      { data := PyValue.pyNone } []).1).mpr ⟨rfl, rfl⟩,
   (http_request_is_supported_subclass_iff requestTypedArg
      { data := PyValue.pyNone } []).2⟩

/-- C10: `HttpRequestArgumentResolver.is_supported` is total: for every argument
whose declared type is not a class it returns false, because the class check
short-circuits the subclass test — while a direct `issubclass` call on the same
type would raise a `TypeError`. -/
theorem http_request_is_supported_total_on_nonclass :
    ∀ a : ComponentMethodArgument, inspect.isclass a.type_ = false →
      HttpRequestArgumentResolver.is_supported a = Except.ok false
      ∧ pyIssubclass a.type_ "Request" =
          Except.error "TypeError: issubclass() arg 1 must be a class" := by
  intro a h
  exact ⟨by simp [HttpRequestArgumentResolver.is_supported, h],
         by simp [pyIssubclass, h]⟩

/-- C10 witness: for the concrete `Optional[int]` argument, `is_supported`
returns false while the unguarded subclass check would raise. -/
theorem http_request_is_supported_total_on_nonclass_witness :
    HttpRequestArgumentResolver.is_supported optionalIntArg = Except.ok false
    ∧ pyIssubclass optionalIntArg.type_ "Request" =
        Except.error "TypeError: issubclass() arg 1 must be a class" :=
  http_request_is_supported_total_on_nonclass optionalIntArg rfl

/-- C1: for a method whose Exception Handling Registry declares mappings to 400
and 401 (the latter via a custom handler), the synthesized response map holds
exactly the status codes 200, 400 and 401; each declared mapping contributes one
response keyed by its status with its derived body schema, and exceptions thrown
without a declared mapping contribute nothing to the operation. -/
theorem exceptionResponses_exactly_declared :
    ∀ (keys : List String) (hm : String) (m : MethodModel) (r : Route)
      (e1 e2 : ExcEntry),
      m.route = some r → m.exception_entries = [e1, e2] →
      e1.status = 400 → e2.status = 401 →
      ((getOperation keys hm m).responses.map Prod.fst = [200, 400, 401]
        ∧ (getOperation keys hm m).responses =
            [(200, { description := "", schema := m.return_body.map bodySchemaOf }),
             (400, { description := "", schema := e1.body.map bodySchemaOf }),
             (401, { description := "", schema := e2.body.map bodySchemaOf })]
        ∧ ∀ thr : List String,
            getOperation keys hm { m with thrown_undeclared := thr } =
              getOperation keys hm m) := by
  intro keys hm m r e1 e2 hr he h1 h2
  refine ⟨?_, ?_, ?_⟩ <;> simp [getOperation, hr, he, h1, h2]

/-- C1 witness: the concrete `APIWithExceptions`-style method with declared 400
and 401 mappings and one undeclared-but-thrown exception synthesizes exactly
the response keys 200, 400, 401. -/
theorem exceptionResponses_exactly_declared_witness :
    (getOperation ["test_app", "get"] "get" exceptionsModel).responses.map Prod.fst =
      [200, 400, 401] :=
  (exceptionResponses_exactly_declared ["test_app", "get"] "get" exceptionsModel
    exceptionsRoute customEntry400 customEntry401 rfl rfl rfl rfl).1

/-- C2: handling `GET /winter-simple/get/` with no query string yields response
headers without `x-hello-world`, while the bare query key `?hello_world` yields
`x-hello-world = "Hello, World!"`; in both cases the interceptor sets
`x-method = "SimpleAPI.get"`, and the key-present-empty and key-absent query
states are distinguishable. -/
theorem interceptor_hello_world_headers :
    (handleSimpleGet { query_pairs := [] }).lookup "x-hello-world" = Option.none
    ∧ (handleSimpleGet { query_pairs := [] }).lookup "x-method" = some "SimpleAPI.get"
    ∧ (handleSimpleGet { query_pairs := [("hello_world", Option.none)] }).lookup
        "x-hello-world" = some "Hello, World!"
    ∧ (handleSimpleGet { query_pairs := [("hello_world", Option.none)] }).lookup
        "x-method" = some "SimpleAPI.get"
    ∧ queryFlagState [("hello_world", Option.none)] "hello_world" = QueryValue.emptyMarker
    ∧ queryFlagState [] "hello_world" = QueryValue.absent
    ∧ QueryValue.emptyMarker ≠ QueryValue.absent := by
  refine ⟨rfl, rfl, rfl, rfl, rfl, rfl, by decide⟩

/-- C6 counterexample: for the `UserDTO`-style dataclass with a defaulted field
and an `Optional` field, the request-body schema's required list is `[name]`
while the response-body schema's is `[name, surname, age]`: the required-list
rule does not hold identically for the request and response schemas of the same
dataclass. -/
theorem userDTO_request_response_required_differ :
    (requestBodySchema userLikeDTOModel).reqList = ["name"]
    ∧ (responseBodySchema userLikeDTOModel).reqList = ["name", "surname", "age"]
    ∧ requestBodySchema userLikeDTOModel ≠ responseBodySchema userLikeDTOModel :=
  ⟨rfl, rfl, by decide⟩

/-- C6 (amended): the exclusion rule — fields with a default or an `Optional`
type are excluded from `required` — governs the request-body schema, while the
response-body schema requires every field; the two schemas coincide for a
dataclass without defaults such as `{a: int, b: str}`, both with
`required = [a, b]`. -/
theorem dataclass_required_field_rule :
    (∀ (d : DataclassModel) (f : DcField), f ∈ d.fields →
        (d.fields.map DcField.fname).Nodup →
        (f.fname ∈ (requestBodySchema d).reqList ↔
          (f.hasDefault = false ∧ f.isOptional = false)))
    ∧ (∀ d : DataclassModel, (responseBodySchema d).reqList = d.fields.map DcField.fname)
    ∧ requestBodySchema nestedDTOModel = responseBodySchema nestedDTOModel
    ∧ (requestBodySchema nestedDTOModel).reqList = ["a", "b"] := by
  refine ⟨?_, fun d => rfl, rfl, rfl⟩
  intro d f hf hnd
  constructor
  · intro hmem
    have hx : ∃ g, (g ∈ d.fields ∧ (!g.hasDefault && !g.isOptional) = true)
        ∧ g.fname = f.fname := by
      simpa [requestBodySchema, OSchema.reqList, requestRequired, List.mem_map,
        List.mem_filter] using hmem
    obtain ⟨g, ⟨hgl, hgp⟩, hgn⟩ := hx
    have hfg : g = f := List.inj_on_of_nodup_map hnd hgl hf hgn
    rw [hfg] at hgp
    simpa using hgp
  · intro hp
    have hfin : f ∈ d.fields.filter (fun g => !g.hasDefault && !g.isOptional) :=
      List.mem_filter.mpr ⟨hf, by simp [hp.1, hp.2]⟩
    simp only [requestBodySchema, OSchema.reqList, requestRequired, List.mem_map]
    exact ⟨f, hfin, rfl⟩

/-- C6 amended-claim witness: the `NestedDTO` field `a` (no default, not
Optional) is required in the request-body schema. -/
theorem dataclass_required_field_rule_witness :
    nestedFieldA.fname ∈ (requestBodySchema nestedDTOModel).reqList ↔
      (nestedFieldA.hasDefault = false ∧ nestedFieldA.isOptional = false) :=
  dataclass_required_field_rule.1 nestedDTOModel nestedFieldA (by decide) (by decide)

/-- C7: for every method lacking a route, synthesis succeeds and yields an
operation whose id is the slug of the supplied operation keys, with an empty
parameter list and a response map holding only status 200 with the declared
return-type schema (no schema for a void return). -/
theorem unrouted_operation_spec :
    ∀ (keys : List String) (hm : String) (m : MethodModel), m.route = Option.none →
      getOperation keys hm m =
        { operation_id := String.intercalate "_" keys
          description := ""
          tags := keys.take 1
          parameters := []
          consumes := ["application/json"]
          produces := ["application/json"]
          responses := [(200, { description := "",
                                schema := m.return_body.map bodySchemaOf })] } := by
  intro keys hm m h
  unfold getOperation
  rw [h]

/-- C7 witness: the unrouted void method with keys `[test_app, post]` and HTTP
method GET synthesizes operation id `test_app_post`, no parameters and a single
schema-less 200 response. -/
theorem unrouted_operation_spec_witness :
    getOperation ["test_app", "post"] "get" unroutedModel =
      { operation_id := "test_app_post", description := "", tags := ["test_app"],
        parameters := [], consumes := ["application/json"],
        produces := ["application/json"],
        responses := [(200, { description := "", schema := Option.none })] } := by
  rw [unrouted_operation_spec ["test_app", "post"] "get" unroutedModel rfl]
  rfl

set_option maxRecDepth 16384 in
/-- C8: the synthesized description of the routed `TestAPI.post` is its
docstring's summary and long-description paragraphs verbatim with the `:param:`
lines removed; each `:param name: text` line is attached to the matching
parameter, and a path or query parameter whose `:param:` line is missing or
empty gets the empty string as description, never an absent one. -/
theorem docstring_param_descriptions_spec :
    ((getOperation ["test_app", "post"] "post" testPostModel).description =
        testPostExpectedDescription
      ∧ (getOperation ["test_app", "post"] "post" testPostModel).parameters.map
          (fun p => (p.name, p.description)) =
        [("data", Option.none), ("path_param", some ""),
         ("query_param", some "some parameter description")])
    ∧ ∀ (doc : List String) (pname : String),
        (docParamPairs doc).lookup pname = Option.none →
        paramDescription doc pname = "" := by
  refine ⟨⟨by decide, by decide⟩, fun doc pname h => ?_⟩
  unfold paramDescription
  rw [h]
  rfl

/-- C8 witness: a parameter name with no `:param:` line in the concrete
docstring gets the empty string description. -/
theorem docstring_param_descriptions_spec_witness :
    paramDescription testPostDocstring "unknown_param" = "" :=
  docstring_param_descriptions_spec.2 testPostDocstring "unknown_param" (by decide)

/-- C9: the synthesized consumes and produces lists are exactly
`[application/json]` when the route declares no media types, and the declared
lists verbatim — charset suffix included — when it does. -/
theorem consumes_produces_media_types :
    (∀ (keys : List String) (hm : String) (m : MethodModel) (r : Route),
        m.route = some r →
        (getOperation keys hm m).consumes = r.consumes.getD ["application/json"]
        ∧ (getOperation keys hm m).produces = r.produces.getD ["application/json"])
    ∧ (getOperation ["test_app", "post"] "post" testPostModel).consumes =
        ["application/json; charset=utf-8"]
    ∧ (getOperation ["test_app", "post"] "post" testPostModel).produces =
        ["application/json; charset=utf-8"]
    ∧ (getOperation ["test_app", "post"] "get" testGetModel).consumes =
        ["application/json"]
    ∧ (getOperation ["test_app", "post"] "get" testGetModel).produces =
        ["application/json"] := by
  refine ⟨fun keys hm m r h => ?_, rfl, rfl, rfl, rfl⟩
  unfold getOperation
  rw [h]
  exact ⟨rfl, rfl⟩

/-- C9 witness: the declared utf-8 media list of the concrete route is used
verbatim. -/
theorem consumes_produces_media_types_witness :
    (getOperation ["x"] "post" testPostModel).consumes =
      (some ["application/json; charset=utf-8"] : Option (List String)).getD
        ["application/json"] :=
  (consumes_produces_media_types.1 ["x"] "post" testPostModel testPostRoute rfl).1
